import Mathlib

/-!
Shallow embedding of the AirFryHub forum client (React + Supabase) for
verification of its specification claims.

Sources embedded:
- `src/lib/validations.ts` : `createPostSchema`, `commentSchema` (zod schemas)
- `src/pages/CreatePost.tsx` : `createPostMutation`, `handleSubmit`
- `src/pages/EditPost.tsx` : `updatePostMutation`, `handleSubmit`
- `src/pages/PostPage.tsx` : queries, `upvoteMutation`, `commentMutation`,
  `handleUpvote`, `handleCommentSubmit`
- `src/pages/Feed.tsx` : posts query (`queryFn`), `toggleFilter`
- `src/components/FlagSelector.tsx` : `toggleFlag`
- `src/components/FilterChips.tsx` : `toggleFilter`, `clearAllFilters`

Modelling conventions:
- JavaScript string-or-undefined-or-null values are the inductive `JStr`.
- String length is the number of characters (JS counts UTF-16 units; the
  difference is irrelevant to every claim, which only compares lengths).
- zod's `.url()` well-formedness test delegates to the platform URL parser;
  it is taken as an abstract boolean predicate `isURL` over which all
  statements quantify.
- Network effects are reified as values (`NetOp`, `Req`): a mutation body is
  a pure function returning its result together with the list of remote
  calls it issues, in program order.
-/

/-- A JavaScript value that is a string, `undefined`, or `null` — the three
shapes that reach `createPostSchema.safeParse` for the string-typed fields. -/
inductive JStr where
  | undef : JStr
  | null : JStr
  | str : String → JStr
deriving DecidableEq, Repr

/-- `createPostSchema.title`: `z.string().min(1).min(3).max(200)`.
Accepts only a string whose length is ≥ 1, ≥ 3 and ≤ 200. -/
def titleCheck : JStr → Bool
  | .str s => decide (1 ≤ s.length) && decide (3 ≤ s.length) && decide (s.length ≤ 200)
  | _ => false

/-- `createPostSchema.content`: `z.string().max(2000).optional()`.
Accepts `undefined`, or a string of length ≤ 2000; rejects `null`. -/
def contentCheck : JStr → Bool
  | .undef => true
  | .null => false
  | .str s => decide (s.length ≤ 2000)

/-- `createPostSchema.image_url` and `.link_url`:
`z.string().url().optional().or(z.literal(""))`, a union whose first branch
accepts `undefined` or a well-formed-URL string and whose second branch
accepts exactly `""`; `null` is rejected by both branches. -/
def urlFieldCheck (isURL : String → Bool) : JStr → Bool
  | .undef => true
  | .null => false
  | .str s => isURL s || decide (s = "")

/-- `commentSchema.content`: `z.string().min(1).min(3).max(500)` applied to a
string (the form only ever holds a string). -/
def commentSchemaAccepts (s : String) : Bool :=
  decide (1 ≤ s.length) && decide (3 ≤ s.length) && decide (s.length ≤ 500)

/-- The object handed to `createPostSchema.safeParse` by the create/edit
mutation bodies (`flags` is always an array there: `postData.flags || []`). -/
structure ParseInput where
  title : JStr
  content : JStr
  image_url : JStr
  link_url : JStr
  flags : List String
deriving DecidableEq, Repr

/-- `createPostSchema.safeParse(...).success`: every field check passes
(`z.array(z.string()).optional().default([])` accepts any string array). -/
def createPostSafeParse (isURL : String → Bool) (inp : ParseInput) : Bool :=
  titleCheck inp.title && contentCheck inp.content &&
    urlFieldCheck isURL inp.image_url && urlFieldCheck isURL inp.link_url

/-- The argument record of `createPostMutation.mutate` / `updatePostMutation.mutate`
(`postData` in `handleSubmit`): `image_url`/`link_url` are string-or-undefined. -/
structure PostData where
  title : String
  content : String
  image_url : Option String
  link_url : Option String
  flags : List String
deriving DecidableEq, Repr

/-- JavaScript `x || null` applied to a string-or-undefined value: `undefined`
and the empty string (both falsy) become `null`. -/
def jstrOrNull : Option String → JStr
  | none => .null
  | some s => if s = "" then .null else .str s

/-- JavaScript `String.prototype.trim()`: remove whitespace characters from
both ends of the string. (Defined structurally on the character list so that
it evaluates inside the kernel; the core library's trim is extensionally the
same but is not kernel-reducible.) -/
def jsTrim (s : String) : String :=
  ⟨((s.data.dropWhile Char.isWhitespace).reverse.dropWhile Char.isWhitespace).reverse⟩

/-- The raw form state at submit time (CreatePost / EditPost). -/
structure PostFormInput where
  title : String
  content : String
  imageUrl : String
  linkUrl : String
  flags : List String
deriving DecidableEq, Repr

/-- `handleSubmit` in CreatePost/EditPost: builds `postData` with
`title: title.trim()`, `content: content.trim()`,
`image_url: imageUrl.trim() || undefined`, `link_url: linkUrl.trim() || undefined`. -/
def submitPostData (f : PostFormInput) : PostData :=
  { title := jsTrim f.title
    content := jsTrim f.content
    image_url := if jsTrim f.imageUrl = "" then none else some (jsTrim f.imageUrl)
    link_url := if jsTrim f.linkUrl = "" then none else some (jsTrim f.linkUrl)
    flags := f.flags }

/-- The object the mutation bodies pass to `safeParse`:
`{ title: postData.title, content: postData.content,
   image_url: postData.image_url || null, link_url: postData.link_url || null,
   flags: postData.flags || [] }`. -/
def mutationParseInput (pd : PostData) : ParseInput :=
  { title := .str pd.title
    content := .str pd.content
    image_url := jstrOrNull pd.image_url
    link_url := jstrOrNull pd.link_url
    flags := pd.flags }

/-- Validation outcome of a full create-post or edit-post submission: the form
state goes through `handleSubmit` and then through the mutation body's
`safeParse` call. -/
def submitValidates (isURL : String → Bool) (f : PostFormInput) : Bool :=
  createPostSafeParse isURL (mutationParseInput (submitPostData f))

/-- C2: for every title string, the create/edit post schema accepts the title
iff its length is at least 3 and at most 200 characters. -/
theorem title_accepted_iff_length_3_to_200 (s : String) :
    titleCheck (.str s) = true ↔ 3 ≤ s.length ∧ s.length ≤ 200 := by
  simp only [titleCheck, Bool.and_eq_true, decide_eq_true_eq]
  omega

/-- C3: for every content string, the create/edit post schema accepts the
content iff its length is at most 2000 characters; the empty string and an
absent (`undefined`) content are both accepted. -/
theorem content_accepted_iff_length_le_2000 :
    (∀ s : String, contentCheck (.str s) = true ↔ s.length ≤ 2000) ∧
      contentCheck .undef = true ∧ contentCheck (.str "") = true := by
  refine ⟨fun s => ?_, rfl, rfl⟩
  simp [contentCheck]

/-- C1 (code bug): the schema itself accepts an omitted (`undefined`) or empty
(`""`) `image_url`/`link_url` and rejects `null`, but every create/edit
submission maps an empty URL field to `null` (`imageUrl.trim() || undefined`
followed by `postData.image_url || null`), so a submission whose URL fields
are left empty fails validation — for every URL predicate — contrary to the
claim that an empty value is accepted. -/
theorem empty_url_submission_rejected (isURL : String → Bool) :
    submitValidates isURL
        { title := "A valid title", content := "some content",
          imageUrl := "", linkUrl := "", flags := [] } = false ∧
      urlFieldCheck isURL .undef = true ∧
      urlFieldCheck isURL (.str "") = true ∧
      urlFieldCheck isURL .null = false := by
  refine ⟨rfl, rfl, ?_, rfl⟩
  simp [urlFieldCheck]

/-- `toggleFlag` in FlagSelector (and the identically-bodied `toggleFilter` in
FilterChips and Feed): if the value is selected, remove every occurrence via
`filter`; otherwise append it. -/
def toggleFlag (selectedFlags : List String) (flagValue : String) : List String :=
  if flagValue ∈ selectedFlags then
    selectedFlags.filter (fun flag => decide (flag ≠ flagValue))
  else
    selectedFlags ++ [flagValue]

/-- C6: toggling the same tag twice yields a selection equal as a set to the
original selection, and when the tag was not in the original selection the
resulting list is identical to the original. -/
theorem toggle_twice_restores_selection (l : List String) (t : String) :
    (∀ x, x ∈ toggleFlag (toggleFlag l t) t ↔ x ∈ l) ∧
      (t ∉ l → toggleFlag (toggleFlag l t) t = l) := by
  by_cases h : t ∈ l
  · have h1 : toggleFlag l t = l.filter (fun flag => decide (flag ≠ t)) := by
      simp [toggleFlag, h]
    have h2 : t ∉ l.filter (fun flag => decide (flag ≠ t)) := by
      simp [List.mem_filter]
    have h3 : toggleFlag (toggleFlag l t) t =
        l.filter (fun flag => decide (flag ≠ t)) ++ [t] := by
      rw [h1, toggleFlag, if_neg h2]
    refine ⟨fun x => ?_, fun ht => absurd h ht⟩
    rw [h3]
    simp only [List.mem_append, List.mem_filter, List.mem_singleton,
      decide_eq_true_eq]
    constructor
    · rintro (⟨hx, _⟩ | rfl) <;> [exact hx; exact h]
    · intro hx
      by_cases hxt : x = t
      · exact Or.inr hxt
      · exact Or.inl ⟨hx, hxt⟩
  · have h1 : toggleFlag l t = l ++ [t] := by simp [toggleFlag, h]
    have h2 : toggleFlag (toggleFlag l t) t = l := by
      rw [h1, toggleFlag, if_pos (by simp)]
      rw [List.filter_append]
      have hl : l.filter (fun flag => decide (flag ≠ t)) = l :=
        List.filter_eq_self.mpr (fun a ha => by
          simp only [decide_eq_true_eq]
          exact fun hat => h (hat ▸ ha))
      have ht : ([t].filter (fun flag => decide (flag ≠ t))) = [] := by simp
      rw [hl, ht, List.append_nil]
    exact ⟨fun x => by rw [h2], fun _ => h2⟩

/-- C6 witness: toggling a tag absent from the selection twice returns the
original list. -/
theorem toggle_twice_restores_selection_witness :
    toggleFlag (toggleFlag ["recipe"] "tip") "tip" = ["recipe"] :=
  (toggle_twice_restores_selection ["recipe"] "tip").2 (by decide)

/-- A row of the remote `posts` table as the client reads it
(`created_at` is modelled as a numeric timestamp). -/
structure Post where
  id : String
  title : String
  content : String
  image_url : Option String
  link_url : Option String
  flags : List String
  user_id : String
  created_at : Nat
  upvotes : Nat
deriving DecidableEq, Repr

/-- Characters of a string, lower-cased (for the case-insensitive `ilike`). -/
def lowerChars (s : String) : List Char :=
  s.data.map Char.toLower

/-- Whether the first list occurs at the head of the second. -/
def headMatches : List Char → List Char → Bool
  | [], _ => true
  | _ :: _, [] => false
  | n :: ns, h :: hs => n == h && headMatches ns hs

/-- Whether the first list occurs contiguously anywhere in the second. -/
def hasSubChars (needle : List Char) : List Char → Bool
  | [] => needle.isEmpty
  | h :: hs => headMatches needle (h :: hs) || hasSubChars needle hs

/-- PostgREST `field.ilike.%term%`: case-insensitive substring match. -/
def ilikeContains (field term : String) : Bool :=
  hasSubChars (lowerChars term) (lowerChars field)

/-- The feed's search predicate:
`title.ilike.%searchTerm%,content.ilike.%searchTerm%` (an `or`). -/
def matchesSearch (term : String) (p : Post) : Bool :=
  ilikeContains p.title term || ilikeContains p.content term

/-- The feed's flag predicate: `query.contains("flags", selectedFilters)` —
the post's flag array contains every selected filter. -/
def containsAllFlags (filters : List String) (p : Post) : Bool :=
  filters.all (fun f => p.flags.contains f)

/-- The three sort options of the feed's `sortBy` select. -/
inductive SortKey where
  | newest
  | oldest
  | mostUpvoted
deriving DecidableEq, Repr

/-- Comparator for `query.order(...)`: `newest` = `created_at` descending,
`oldest` = `created_at` ascending, `most_upvoted` = `upvotes` descending. -/
def postLE : SortKey → Post → Post → Bool
  | .newest, a, b => decide (b.created_at ≤ a.created_at)
  | .oldest, a, b => decide (a.created_at ≤ b.created_at)
  | .mostUpvoted, a, b => decide (b.upvotes ≤ a.upvotes)

/-- Insert a post into an ordered list (model of the server's ORDER BY). -/
def insertSorted (le : Post → Post → Bool) (p : Post) : List Post → List Post
  | [] => [p]
  | q :: qs => if le p q then p :: q :: qs else q :: insertSorted le p qs

/-- Order a list of posts by the comparator (model of the server's ORDER BY). -/
def orderBy (le : Post → Post → Bool) (l : List Post) : List Post :=
  l.foldr (insertSorted le) []

/-- `queryFn` of the Feed posts query: apply the search predicate only when
`searchTerm` is truthy (non-empty), apply the flag-containment predicate only
when `selectedFilters.length > 0`, then order by the sort key. -/
def feedQueryFn (searchTerm : String) (selectedFilters : List String)
    (sortBy : SortKey) (table : List Post) : List Post :=
  let afterSearch :=
    if searchTerm ≠ "" then table.filter (matchesSearch searchTerm) else table
  let afterFlags :=
    if 0 < selectedFilters.length then
      afterSearch.filter (containsAllFlags selectedFilters)
    else afterSearch
  orderBy (postLE sortBy) afterFlags

/-- `FilterChips.clearAllFilters`: replaces the selection with the empty list. -/
def clearAllFilters (_selectedFilters : List String) : List String := []

/-- The Feed's "Clear filters" button: resets the search term and the
filter selection. -/
def clearFeedFilters (_searchTerm : String) (_selectedFilters : List String) :
    String × List String :=
  ("", [])

theorem mem_insertSorted (le : Post → Post → Bool) (p x : Post) (l : List Post) :
    x ∈ insertSorted le p l ↔ x = p ∨ x ∈ l := by
  induction l with
  | nil => simp [insertSorted]
  | cons q qs ih =>
    simp only [insertSorted]
    split
    · simp [or_assoc]
    · simp only [List.mem_cons, ih]
      tauto

theorem mem_orderBy (le : Post → Post → Bool) (x : Post) (l : List Post) :
    x ∈ orderBy le l ↔ x ∈ l := by
  induction l with
  | nil => simp [orderBy]
  | cons q qs ih =>
    simp only [orderBy, List.foldr_cons] at *
    rw [mem_insertSorted, ih, List.mem_cons]

/-- C7: with an empty search term and an empty tag-filter set, the feed query
applies neither the search predicate nor the flag-containment predicate — it
is exactly the ordered full table, and so contains every post of the table;
and clearing the filters resets the selection (and the search term) to empty. -/
theorem empty_filters_feed_returns_all_posts :
    (∀ (sb : SortKey) (table : List Post),
        feedQueryFn "" [] sb table = orderBy (postLE sb) table ∧
          ∀ p, p ∈ feedQueryFn "" [] sb table ↔ p ∈ table) ∧
      (∀ fs, clearAllFilters fs = []) ∧
        ∀ st fs, clearFeedFilters st fs = ("", []) := by
  refine ⟨fun sb table => ⟨rfl, fun p => ?_⟩, fun _ => rfl, fun _ _ => rfl⟩
  show p ∈ orderBy (postLE sb) table ↔ p ∈ table
  exact mem_orderBy _ _ _

/-- A query or mutation configuration of the app, reduced to the fields the
retry claims depend on: its identifying name, whether it is a mutation, and
the explicit `retry` option in its configuration object (`none` when the
configuration does not set one and the library default applies). -/
structure RemoteOp where
  name : String
  isMutation : Bool
  retryOption : Option Nat
deriving DecidableEq, Repr

/-- Every `useQuery`/`useMutation` configuration in the application, with its
explicit `retry` option. Only the post query on the post page sets one
(`retry: 1`). -/
def appRemoteOps : List RemoteOp :=
  [⟨"Feed.posts", false, none⟩,
   ⟨"EditPost.post", false, none⟩,
   ⟨"EditPost.updatePost", true, none⟩,
   ⟨"EditPost.deletePost", true, none⟩,
   ⟨"CreatePost.createPost", true, none⟩,
   ⟨"PostPage.post", false, some 1⟩,
   ⟨"PostPage.comments", false, none⟩,
   ⟨"PostPage.upvote", true, none⟩,
   ⟨"PostPage.comment", true, none⟩,
   ⟨"PostPage.deletePost", true, none⟩]

/-- Number of automatic retries the fetch/cache library performs after a
failed attempt: the explicit `retry` option when set; otherwise the library
default (0 for mutations, `queryDefault` for queries). -/
def automaticRetries (queryDefault : Nat) (op : RemoteOp) : Nat :=
  match op.retryOption with
  | some n => n
  | none => if op.isMutation then 0 else queryDefault

/-- C4 counterexample: it is not the case that every remote operation performs
zero automatic retries (even granting a zero library default): the post query
on the post page is configured with `retry: 1`. -/
theorem not_all_ops_retry_free :
    ¬ ∀ op ∈ appRemoteOps, automaticRetries 0 op = 0 := by
  decide

/-- C4 amended: the only operation whose configuration sets an automatic
retry is the post-page post query, which retries a failed fetch exactly once;
every other query and mutation leaves the retry option unset. -/
theorem only_post_page_post_query_retries :
    (∀ op ∈ appRemoteOps, op.retryOption ≠ none →
        op = ⟨"PostPage.post", false, some 1⟩) ∧
      automaticRetries 0 ⟨"PostPage.post", false, some 1⟩ = 1 := by
  decide

/-- C4 witness: the amended statement applied to the post-page post query. -/
theorem only_post_page_post_query_retries_witness :
    (⟨"PostPage.post", false, some 1⟩ : RemoteOp) =
      ⟨"PostPage.post", false, some 1⟩ :=
  only_post_page_post_query_retries.1 ⟨"PostPage.post", false, some 1⟩
    (by decide) (by decide)

/-- A write issued against the remote posts table (`supabase.from("posts")`).
`insertPost` carries the optional `user_id` the create mutation attaches. -/
inductive NetOp where
  | insertPost (row : PostData) (user_id : Option String)
  | updatePost (id : String) (row : PostData)
deriving DecidableEq, Repr

/-- The keys of the `errorMap` built from `validationResult.error.issues`
(one entry per failing field, keyed by `issue.path[0]`). -/
def validationErrorFields (isURL : String → Bool) (inp : ParseInput) : List String :=
  (if titleCheck inp.title then [] else ["title"]) ++
    (if contentCheck inp.content then [] else ["content"]) ++
    (if urlFieldCheck isURL inp.image_url then [] else ["image_url"]) ++
    (if urlFieldCheck isURL inp.link_url then [] else ["link_url"])

/-- `createPostMutation.mutationFn`: validate with `safeParse`; on failure,
throw the error map before reaching the insert; on success, issue a single
insert of the validated row, attaching `user_id` only when present. -/
def createPostMutationFn (isURL : String → Bool) (userId : Option String)
    (pd : PostData) : Except (List String) PostData × List NetOp :=
  if createPostSafeParse isURL (mutationParseInput pd) then
    (.ok pd, [.insertPost pd userId])
  else
    (.error (validationErrorFields isURL (mutationParseInput pd)), [])

/-- `updatePostMutation.mutationFn` in EditPost: validate with the same
schema; on failure, throw before reaching the update; on success, issue a
single update of the row with the given post id. -/
def updatePostMutationFn (isURL : String → Bool) (id : String)
    (pd : PostData) : Except (List String) PostData × List NetOp :=
  if createPostSafeParse isURL (mutationParseInput pd) then
    (.ok pd, [.updatePost id pd])
  else
    (.error (validationErrorFields isURL (mutationParseInput pd)), [])

/-- The row the external database stores for an insert. Server-assigned
columns (id, creation timestamp, the upvote counter default) live outside
this repository and are modelled with defaults; no claim depends on them. -/
def rowToPost (row : PostData) (user_id : Option String) : Post :=
  { id := ""
    title := row.title
    content := row.content
    image_url := row.image_url
    link_url := row.link_url
    flags := row.flags
    user_id := user_id.getD ""
    created_at := 0
    upvotes := 0 }

/-- Effect of one write on the remote posts table. -/
def applyNetOp (table : List Post) : NetOp → List Post
  | .insertPost row u => table ++ [rowToPost row u]
  | .updatePost i row =>
    table.map fun p =>
      if p.id = i then
        { p with
          title := row.title
          content := row.content
          image_url := row.image_url
          link_url := row.link_url
          flags := row.flags }
      else p

/-- Effect of a sequence of writes on the remote posts table, in order. -/
def applyNetOps (table : List Post) (ops : List NetOp) : List Post :=
  ops.foldl applyNetOp table

/-- C5: when the schema validation of a create-post or edit-post submission
fails, the mutation body issues no network write at all, so the remote posts
table is unchanged. -/
theorem failed_validation_performs_no_write
    (isURL : String → Bool) (uid : Option String) (pid : String) (pd : PostData)
    (h : createPostSafeParse isURL (mutationParseInput pd) = false) :
    (createPostMutationFn isURL uid pd).2 = [] ∧
      (updatePostMutationFn isURL pid pd).2 = [] ∧
      ∀ table : List Post,
        applyNetOps table (createPostMutationFn isURL uid pd).2 = table ∧
          applyNetOps table (updatePostMutationFn isURL pid pd).2 = table := by
  simp [createPostMutationFn, updatePostMutationFn, h, applyNetOps]

/-- C5 witness: a submission whose title is too short (and whose URL fields
are absent) fails validation and leaves an empty posts table empty. -/
theorem failed_validation_performs_no_write_witness :
    (createPostMutationFn (fun _ => false) none
          ⟨"ab", "", none, none, []⟩).2 = [] ∧
      applyNetOps []
          (createPostMutationFn (fun _ => false) none
            ⟨"ab", "", none, none, []⟩).2 = [] := by
  have h := failed_validation_performs_no_write (fun _ => false) none "p1"
    ⟨"ab", "", none, none, []⟩ (by decide)
  exact ⟨h.1, (h.2.2 []).1⟩

/-- A remote request issued from the post page. -/
inductive Req where
  | fetchPost
  | rpcIncrementUpvotes (post_id : String)
  | insertComment (user_id : String) (content : String)
deriving DecidableEq, Repr

/-- The local state of the post page: the post query's data, the two pending
flags (`upvoteMutation.isPending`, `isSubmittingComment`), the comment
textarea, the two error banners, and whether the post query is marked stale
by an invalidation. -/
structure PostPageState where
  post : Option Post
  upvotePending : Bool
  commentPending : Bool
  newComment : String
  upvoteError : Option String
  commentError : Option String
  postStale : Bool
deriving DecidableEq, Repr

/-- Initial post-page state before any fetch completes. -/
def initPostPageState : PostPageState :=
  { post := none, upvotePending := false, commentPending := false,
    newComment := "", upvoteError := none, commentError := none,
    postStale := false }

/-- The user/network events the post page reacts to. -/
inductive PEvent where
  | postFetched (p : Post)
  | upvoteClick
  | upvoteSucceeded
  | upvoteFailed (msg : String)
  | commentTyped (s : String)
  | commentSubmit
  | commentSucceeded
  | commentFailed (msg : String)
deriving DecidableEq, Repr

/-- One step of the post page: the next state and the remote requests issued.
Each case is the corresponding handler/callback in PostPage:
- `postFetched`: the post query resolves and its data replaces the cache entry;
- `upvoteClick` (`handleUpvote`): returns if `upvoteMutation.isPending || !post`,
  else mutates — the mutation body throws before the rpc when there is no
  authenticated user, otherwise issues one `increment_upvotes` rpc;
- `upvoteSucceeded` (`onSuccess`): invalidates the post query, which refetches;
- `commentSubmit` (`handleCommentSubmit`): returns if
  `!newComment.trim() || isSubmittingComment`, else sets the pending flag and
  mutates — the mutation body throws before the insert when there is no
  authenticated user, otherwise inserts the trimmed comment once. -/
def stepE (userId : Option String) (s : PostPageState) :
    PEvent → PostPageState × List Req
  | .postFetched p => ({ s with post := some p, postStale := false }, [])
  | .upvoteClick =>
    if s.upvotePending ∨ s.post.isNone then (s, [])
    else
      ({ s with upvotePending := true },
        match s.post, userId with
        | some p, some _ => [.rpcIncrementUpvotes p.id]
        | _, _ => [])
  | .upvoteSucceeded =>
    ({ s with upvotePending := false, postStale := true, upvoteError := none },
      [.fetchPost])
  | .upvoteFailed m => ({ s with upvotePending := false, upvoteError := some m }, [])
  | .commentTyped str => ({ s with newComment := str }, [])
  | .commentSubmit =>
    if jsTrim s.newComment = "" ∨ s.commentPending then (s, [])
    else
      ({ s with commentPending := true },
        match userId with
        | some u => [.insertComment u (jsTrim s.newComment)]
        | none => [])
  | .commentSucceeded =>
    ({ s with commentPending := false, newComment := "", commentError := none }, [])
  | .commentFailed m => ({ s with commentPending := false, commentError := some m }, [])

/-- The post-page state after a sequence of events. -/
def runPostPage (userId : Option String) (events : List PEvent) : PostPageState :=
  events.foldl (fun s e => (stepE userId s e).1) initPostPageState

/-- The last post record delivered by the server over a sequence of events. -/
def lastFetched (events : List PEvent) : Option Post :=
  events.foldl
    (fun acc e => match e with | .postFetched p => some p | _ => acc) none

/-- The upvote count rendered by the post page: `{post.upvotes}` of the post
query's data. -/
def displayedUpvotes (s : PostPageState) : Option Nat :=
  s.post.map (fun p => p.upvotes)

theorem stepE_post (uid : Option String) (s : PostPageState) (e : PEvent) :
    ((stepE uid s e).1).post =
      match e with
      | .postFetched p => some p
      | _ => s.post := by
  cases e with
  | postFetched p => rfl
  | upvoteClick => simp only [stepE]; split <;> rfl
  | commentSubmit => simp only [stepE]; split <;> rfl
  | upvoteSucceeded => rfl
  | upvoteFailed m => rfl
  | commentTyped str => rfl
  | commentSucceeded => rfl
  | commentFailed m => rfl

theorem foldl_stepE_post (uid : Option String) (events : List PEvent) :
    ∀ s : PostPageState,
      (events.foldl (fun s e => (stepE uid s e).1) s).post =
        events.foldl
          (fun acc e => match e with | PEvent.postFetched p => some p | _ => acc)
          s.post := by
  induction events with
  | nil => intro s; rfl
  | cons e t ih =>
    intro s
    simp only [List.foldl_cons]
    rw [ih]
    congr 1
    exact stepE_post uid s e

/-- C8: after any sequence of events, the upvote count the post page displays
is exactly the `upvotes` field of the last post record fetched from the
server — no event handler adjusts it locally — and a successful upvote
mutation triggers a refetch of the post. -/
theorem upvotes_displayed_eq_last_fetched (uid : Option String)
    (events : List PEvent) :
    displayedUpvotes (runPostPage uid events) =
        (lastFetched events).map (fun p => p.upvotes) ∧
      ∀ s, (stepE uid s .upvoteSucceeded).2 = [Req.fetchPost] := by
  refine ⟨?_, fun s => rfl⟩
  show (runPostPage uid events).post.map _ = _
  rw [runPostPage, foldl_stepE_post]
  rfl

/-- C9: while an upvote request is pending, invoking the upvote handler
changes nothing and starts no request; while a comment submission is in
flight, invoking the comment submit handler changes nothing and starts no
request. -/
theorem pending_action_starts_no_request (uid : Option String)
    (s : PostPageState) :
    (s.upvotePending = true → stepE uid s .upvoteClick = (s, [])) ∧
      (s.commentPending = true → stepE uid s .commentSubmit = (s, [])) := by
  constructor
  · intro h
    simp [stepE, h]
  · intro h
    simp [stepE, h]

/-- C9 witness: with both pending flags set, neither handler issues anything. -/
theorem pending_action_starts_no_request_witness :
    stepE (some "u") ⟨none, true, true, "hello", none, none, false⟩
          PEvent.upvoteClick =
        (⟨none, true, true, "hello", none, none, false⟩, []) ∧
      stepE (some "u") ⟨none, true, true, "hello", none, none, false⟩
          PEvent.commentSubmit =
        (⟨none, true, true, "hello", none, none, false⟩, []) :=
  ⟨(pending_action_starts_no_request (some "u") _).1 rfl,
    (pending_action_starts_no_request (some "u") _).2 rfl⟩

/-- C10: the comment submit path issues an insert iff the trimmed comment is
non-empty, no submission is in flight, and an authenticated user id exists;
the inserted content is exactly the trimmed comment, with the
`commentSchema` bounds never consulted — in particular a 1-character comment,
which `commentSchema` rejects, is sent. -/
theorem comment_insert_iff_nonempty_not_pending_authed (uid : Option String)
    (s : PostPageState) :
    ((stepE uid s .commentSubmit).2 ≠ [] ↔
        jsTrim s.newComment ≠ "" ∧ s.commentPending = false ∧
          uid.isSome = true) ∧
      (∀ u, uid = some u → jsTrim s.newComment ≠ "" →
        s.commentPending = false →
          (stepE uid s .commentSubmit).2 =
            [Req.insertComment u (jsTrim s.newComment)]) ∧
      commentSchemaAccepts "a" = false := by
  refine ⟨?_, ?_, by decide⟩
  · rcases uid with _ | u <;>
      by_cases hp : s.commentPending <;>
        by_cases hn : jsTrim s.newComment = "" <;>
          simp [stepE, hp, hn]
  · rintro u rfl hn hp
    simp [stepE, hn, hp]

/-- C10 witness: with user "u", no submission in flight and comment "a", one
insert of "a" is issued even though `commentSchema` rejects "a". -/
theorem comment_insert_iff_nonempty_not_pending_authed_witness :
    (stepE (some "u") ⟨none, false, false, "a", none, none, false⟩
        PEvent.commentSubmit).2 = [Req.insertComment "u" "a"] := by
  have h := (comment_insert_iff_nonempty_not_pending_authed (some "u")
    ⟨none, false, false, "a", none, none, false⟩).2.1 "u" rfl (by decide) rfl
  simpa using h
